import Mathlib

/-!
Verification of the runtime language-context normalization subsystem and the
security-fix diff-application engine of the Amazon Q VS Code extension
(aws-toolkit-vscode), shallowly embedded in Lean 4.

The repository snapshot contains the unit tests of both components
(`runtimeLanguageContext.test.ts`, `basicCommands.test.ts`) but not the
implementation files themselves; the definitions below are therefore
modelled from the specification, with the mapping tables reconstructed from
the specification text together with the expectations recorded in the
in-repository unit tests.
-/

deriving instance DecidableEq for Except

namespace LanguageContext

/-- Modelled from the spec: the closed set of `CanonicalLanguage` tags
(`CodewhispererLanguage`) understood by the downstream AI service; the
implementation file `runtimeLanguageContext.ts` is missing from the snapshot,
so the set is reconstructed from §3 of the spec and the language lists in
`runtimeLanguageContext.test.ts`. -/
def canonicalLanguages : List String :=
  ["c", "cpp", "csharp", "dart", "go", "java", "javascript", "json", "jsx",
   "kotlin", "lua", "php", "plaintext", "powershell", "python", "r", "ruby",
   "rust", "scala", "shell", "sql", "swift", "systemVerilog", "tf", "tsx",
   "typescript", "vue", "yaml"]

/-- Modelled from the spec: the strict identifier table used by
`normalizeLanguage` (missing `runtimeLanguageContext.ts`): canonical tags map
to themselves and recognized `PlatformLanguageId` aliases map to their
canonical tag; `r` is deliberately absent from this strict table (spec §4.1
and §9, Open Questions). -/
def platformLanguageMap : List (String × String) :=
  [("c", "c"), ("c_cpp", "cpp"), ("cpp", "cpp"), ("csharp", "csharp"),
   ("go", "go"), ("golang", "go"), ("java", "java"),
   ("javascript", "javascript"), ("javascriptreact", "jsx"), ("jsx", "jsx"),
   ("kotlin", "kotlin"), ("php", "php"), ("plaintext", "plaintext"),
   ("python", "python"), ("ruby", "ruby"), ("rust", "rust"),
   ("scala", "scala"), ("sh", "shell"), ("shell", "shell"),
   ("shellscript", "shell"), ("sql", "sql"), ("tsx", "tsx"),
   ("typescript", "typescript"), ("typescriptreact", "tsx")]

/-- Modelled from the spec: the canonical tags recognized by the strict
`normalizeLanguage` path (the identity rows of `platformLanguageMap`). -/
def strictCanonicalLanguages : List String :=
  ["c", "cpp", "csharp", "go", "java", "javascript", "jsx", "kotlin", "php",
   "plaintext", "python", "ruby", "rust", "scala", "shell", "sql", "tsx",
   "typescript"]

/-- Modelled from the spec: `normalizeLanguage` (missing
`runtimeLanguageContext.ts`) — strict variant: exact lookup in the strict
identifier table, no filename fallback, no default. -/
def normalizeLanguage (languageId : Option String) : Option String :=
  languageId.bind (fun id => platformLanguageMap.lookup id)

/-- Modelled from the spec: the fuller identifier table backing
`getLanguageContext` and `isLanguageSupported` (missing
`runtimeLanguageContext.ts`): in addition to the strict table it recognizes
the remaining canonical tags (`r`, `dart`, `lua`, `powershell`, `swift`,
`systemVerilog`, `vue`, `json`, `yaml`, `tf`) as themselves. -/
def languageContextMap : List (String × String) :=
  platformLanguageMap ++
  [("dart", "dart"), ("json", "json"), ("lua", "lua"),
   ("powershell", "powershell"), ("r", "r"), ("swift", "swift"),
   ("systemVerilog", "systemVerilog"), ("tf", "tf"), ("vue", "vue"),
   ("yaml", "yaml")]

/-- The `{ language }` record returned by `getLanguageContext`. -/
structure LanguageContextResult where
  language : String
  deriving Repr, DecidableEq

/-- Modelled from the spec: `getLanguageContext` (missing
`runtimeLanguageContext.ts`) — always returns a value; unresolvable or
undefined input defaults to `plaintext`.  (The optional file-extension hint
of the full signature is left out: the spec does not define its lookup and
no claim depends on it.) -/
def getLanguageContext (languageId : Option String) : LanguageContextResult :=
  { language := (languageId.bind (fun id => languageContextMap.lookup id)).getD "plaintext" }

/-- Modelled from the spec: `FileExtensionTable` (missing
`runtimeLanguageContext.ts`) — file extension (no leading dot,
case-insensitive) to canonical language; contents reconstructed from the
document cases of `runtimeLanguageContext.test.ts`. -/
def fileExtensionTable : List (String × String) :=
  [("c", "c"), ("cc", "cpp"), ("cpp", "cpp"), ("cs", "csharp"),
   ("dart", "dart"), ("go", "go"), ("h", "c"), ("java", "java"),
   ("js", "javascript"), ("json", "json"), ("jsx", "jsx"), ("kt", "kotlin"),
   ("lua", "lua"), ("php", "php"), ("ps1", "powershell"),
   ("psm1", "powershell"), ("py", "python"), ("r", "r"), ("rb", "ruby"),
   ("rs", "rust"), ("scala", "scala"), ("sh", "shell"), ("sql", "sql"),
   ("sv", "systemVerilog"), ("svh", "systemVerilog"), ("swift", "swift"),
   ("tf", "tf"), ("ts", "typescript"), ("tsx", "tsx"),
   ("vh", "systemVerilog"), ("vue", "vue"), ("wlua", "lua"),
   ("yaml", "yaml"), ("yml", "yaml")]

/-- ASCII lower-casing of one character, as applied to file extensions
before lookup (case-insensitive matching). -/
def lowerChar (c : Char) : Char :=
  match c with
  | 'A' => 'a' | 'B' => 'b' | 'C' => 'c' | 'D' => 'd' | 'E' => 'e' | 'F' => 'f'
  | 'G' => 'g' | 'H' => 'h' | 'I' => 'i' | 'J' => 'j' | 'K' => 'k' | 'L' => 'l'
  | 'M' => 'm' | 'N' => 'n' | 'O' => 'o' | 'P' => 'p' | 'Q' => 'q' | 'R' => 'r'
  | 'S' => 's' | 'T' => 't' | 'U' => 'u' | 'V' => 'v' | 'W' => 'w' | 'X' => 'x'
  | 'Y' => 'y' | 'Z' => 'z' | _ => c

/-- ASCII lower-casing of a string. -/
def lowerString (s : String) : String :=
  String.mk (s.toList.map lowerChar)

/-- The characters after the last dot of a character list, or none when it
contains no dot. -/
def extAux : List Char → Option (List Char)
  | [] => none
  | c :: rest =>
      match extAux rest with
      | some e => some e
      | none => if c = '.' then some rest else none

/-- The extension of a filename: the part after the last dot, or none when
the filename has no dot. -/
def fileExtension (filename : String) : Option String :=
  (extAux filename.toList).map (fun cs => String.mk cs)

/-- Modelled from the spec: `isLanguageSupported` on a raw identifier
(missing `runtimeLanguageContext.ts`): the identifier resolves through the
identifier table and is supported iff it resolves to a canonical tag other
than `plaintext`. -/
def isLanguageSupportedId (languageId : String) : Bool :=
  match languageContextMap.lookup languageId with
  | some l => l != "plaintext"
  | none => false

/-- The extension-based fallback of `isLanguageSupported`: the filename's
extension, lower-cased, is looked up in `fileExtensionTable`; supported iff
found. -/
def extSupported (filename : String) : Bool :=
  match fileExtension filename with
  | some ext => (fileExtensionTable.lookup (lowerString ext)).isSome
  | none => false

/-- Modelled from the spec: `isLanguageSupported` on a document-like value
(language identifier plus filename): first try the identifier, otherwise
decide by the filename's extension, matched case-insensitively against
`fileExtensionTable`. -/
def isLanguageSupportedDoc (languageId : String) (filename : String) : Bool :=
  isLanguageSupportedId languageId || extSupported filename

/-- Modelled from the spec: `toRuntimeLanguage` (missing
`runtimeLanguageContext.ts`) — collapses fix-subvariant tags to their base
runtime representation; all other canonical tags pass through unchanged. -/
def toRuntimeLanguage (language : String) : String :=
  match language with
  | "jsx" => "javascript"
  | "tsx" => "typescript"
  | "systemVerilog" => "systemverilog"
  | _ => language

/-- The nested `programmingLanguage` object of a service request. -/
structure ProgrammingLanguage where
  languageName : String
  deriving Repr, DecidableEq

/-- The `fileContext` object of a service request. -/
structure FileContext where
  leftFileContent : String
  rightFileContent : String
  filename : String
  programmingLanguage : ProgrammingLanguage
  deriving Repr, DecidableEq

/-- A `ListRecommendationsRequest` as built in the unit tests. -/
structure ListRecommendationsRequest where
  fileContext : FileContext
  maxResults : Nat
  nextToken : String
  deriving Repr, DecidableEq

/-- A `GenerateRecommendationsRequest` as built in the unit tests. -/
structure GenerateRecommendationsRequest where
  fileContext : FileContext
  maxResults : Nat
  deriving Repr, DecidableEq

/-- Modelled from the spec: the dedicated language-name mapping table used by
`mapToRuntimeLanguage` (missing `runtimeLanguageContext.ts`), distinct from
`toRuntimeLanguage`; rows reconstructed from spec §4.1 together with the
`covertCwsprRequest` fixtures of `runtimeLanguageContext.test.ts` (which in
addition to `jsx`, `tsx` and `hcl` also expect `yml -> yaml`). -/
def runtimeLanguageNameMap : List (String × String) :=
  [("jsx", "javascript"), ("tsx", "typescript"), ("hcl", "tf"),
   ("yml", "yaml")]

/-- The language-name rewrite applied by `mapToRuntimeLanguage`: names found
in `runtimeLanguageNameMap` are rewritten, every other name passes through
verbatim. -/
def mapRuntimeLanguageName (name : String) : String :=
  (runtimeLanguageNameMap.lookup name).getD name

/-- Rebuilds a `fileContext` with the nested `programmingLanguage.languageName`
rewritten and all sibling fields preserved by value. -/
def mapFileContext (fc : FileContext) : FileContext :=
  { fc with programmingLanguage :=
      { languageName := mapRuntimeLanguageName fc.programmingLanguage.languageName } }

/-- Modelled from the spec: `mapToRuntimeLanguage` on a
`ListRecommendationsRequest` (missing `runtimeLanguageContext.ts`): a new
request value with the nested language name rewritten through the dedicated
table and all sibling fields preserved. -/
def mapToRuntimeLanguage (request : ListRecommendationsRequest) : ListRecommendationsRequest :=
  { request with fileContext := mapFileContext request.fileContext }

/-- Modelled from the spec: `mapToRuntimeLanguage` on a
`GenerateRecommendationsRequest`. -/
def mapToRuntimeLanguageGen (request : GenerateRecommendationsRequest) : GenerateRecommendationsRequest :=
  { request with fileContext := mapFileContext request.fileContext }

end LanguageContext

namespace DiffPatch

/-- The diff marker of one hunk line: context (` `), added (`+`) or
removed (`-`). -/
inductive DiffTag where
  | context : DiffTag
  | added : DiffTag
  | removed : DiffTag
  deriving Repr, DecidableEq

/-- One line of a unified-diff hunk: its marker and its text. -/
structure DiffLine where
  tag : DiffTag
  text : String
  deriving Repr, DecidableEq

/-- Modelled from the spec: a `Hunk` — a unified-diff fragment with a
starting-line hint (1-indexed, from the `@@ -a,b +c,d @@` header) and an
ordered sequence of tagged context/added/removed lines (spec §3). -/
structure Hunk where
  startLine : Nat
  lines : List DiffLine
  deriving Repr, DecidableEq

/-- The hunk's "old" side: context plus removed lines, in order. -/
def oldSide (h : Hunk) : List String :=
  (h.lines.filter (fun l => l.tag != DiffTag.added)).map (fun l => l.text)

/-- The hunk's "new" side: context plus added lines, in order. -/
def newSide (h : Hunk) : List String :=
  (h.lines.filter (fun l => l.tag != DiffTag.removed)).map (fun l => l.text)

/-- Modelled from the spec: the fixed drift tolerance of the diff applier —
up to 4 non-matching lines are tolerated within the compared window
(spec §4.2 and §9; implementation missing from the snapshot). -/
def driftTolerance : Nat := 4

/-- The number of non-matching lines when the block `old` is aligned against
the document lines starting at position `p`. -/
def countMismatch (doc old : List String) (p : Nat) : Nat :=
  (List.range old.length).countP (fun i => doc.get? (p + i) != old.get? i)

/-- Candidate alignment positions `0..maxP`, ordered by distance from the
hint position (the hint itself first, then positions one line away, and so
on), anchoring the search near the hunk's starting-line hint (spec §4.2). -/
def searchPositions (hint maxP : Nat) : List Nat :=
  ((List.range (maxP + hint + 1)).flatMap
    (fun d => [hint - d, hint + d])).filter (fun p => p ≤ maxP)

/-- Modelled from the spec: the alignment search of the diff applier — the
first candidate position (nearest the hint) at which the old side matches
the document within the drift tolerance, if any. -/
def findAlignment (doc old : List String) (hint : Nat) : Option Nat :=
  if old.length ≤ doc.length then
    (searchPositions hint (doc.length - old.length)).find?
      (fun p => countMismatch doc old p ≤ driftTolerance)
  else none

/-- The line decomposition of a text: split at every newline character
(the JavaScript `text.split('\n')`; the empty text yields one empty line). -/
def splitLinesAux : List Char → List (List Char)
  | [] => [[]]
  | c :: rest =>
      let r := splitLinesAux rest
      if c = '\n' then [] :: r
      else
        match r with
        | [] => [[c]]
        | l :: ls => (c :: l) :: ls

/-- The lines of a text, split at newline characters. -/
def splitLines (s : String) : List String :=
  (splitLinesAux s.toList).map (fun cs => String.mk cs)

/-- A 0-indexed range in the current document, in line/column coordinates. -/
structure FixRange where
  startLine : Nat
  startCol : Nat
  endLine : Nat
  endCol : Nat
  deriving Repr, DecidableEq

/-- A successful diff application: the matched range in the current document
and the literal replacement text. -/
structure PatchResult where
  range : FixRange
  replacement : String
  deriving Repr, DecidableEq

/-- The typed error produced when the patch cannot be matched against the
current content. -/
def patchFailureMessage : String :=
  "Failed to get updated content from applying diff patch"

/-- Modelled from the spec: the diff applier (spec §4.2; implementation
missing from the snapshot, behavior fixed by the `applySecurityFix` unit
tests in `basicCommands.test.ts`).  The current document is given as its
ordered sequence of lines.  The hunk's old side is aligned against the
document near the hint line within the drift tolerance; on success the
result is the matched 0-indexed line range (start column 0, end column the
length of the last matched document line) and the hunk's new side joined as
lines; otherwise the typed failure. -/
def applyDiff (doc : List String) (h : Hunk) : Except String PatchResult :=
  match findAlignment doc (oldSide h) (h.startLine - 1) with
  | none => Except.error patchFailureMessage
  | some p =>
      Except.ok
        { range :=
            { startLine := p, startCol := 0,
              endLine := p + (oldSide h).length - 1,
              endCol := ((doc.get? (p + (oldSide h).length - 1)).getD "").length },
          replacement := String.intercalate "\n" (newSide h) }

/-- The caller's edit step: on success the matched line range is replaced by
the lines of the replacement text; on failure the document is returned
completely unchanged (spec §7: the caller leaves the document untouched,
never partially applies an edit). -/
def applyFixToDocument (doc : List String) (h : Hunk) : List String :=
  match applyDiff doc h with
  | Except.error _ => doc
  | Except.ok r =>
      doc.take r.range.startLine ++ splitLines r.replacement ++
        doc.drop (r.range.endLine + 1)

/-! Concrete fixtures, taken from the `applySecurityFix` unit tests of
`basicCommands.test.ts` and the `covertCwsprRequest` fixtures of
`runtimeLanguageContext.test.ts`. -/

/-- The three-line document of the first `applySecurityFix` test. -/
def docThree : List String := ["first line", " second line", " fourth line"]

/-- The hunk `@@ -1,3 +1,3 @@` replacing the middle line of `docThree`. -/
def hunkMiddle : Hunk :=
  { startLine := 1,
    lines := [⟨DiffTag.context, "first line"⟩,
              ⟨DiffTag.removed, " second line"⟩,
              ⟨DiffTag.added, " third line"⟩,
              ⟨DiffTag.context, " fourth line"⟩] }

/-- The five-line document of the patch-failure and tolerance tests. -/
def docFive : List String :=
  ["first line", "second line", "third line", "fourth line", "fifth line"]

/-- The hunk of the patch-failure test: its old side shares no line with
`docFive`. -/
def hunkNoMatch : Hunk :=
  { startLine := 3,
    lines := [⟨DiffTag.context, "fix"⟩, ⟨DiffTag.context, "that"⟩,
              ⟨DiffTag.removed, "doesn't"⟩, ⟨DiffTag.added, "match"⟩,
              ⟨DiffTag.context, "the"⟩, ⟨DiffTag.context, "document"⟩] }

/-- A hunk whose old side differs from `docFive` in exactly four lines,
exercising the full drift tolerance. -/
def hunkDriftFour : Hunk :=
  { startLine := 1,
    lines := [⟨DiffTag.context, "first line"⟩, ⟨DiffTag.context, "aaa"⟩,
              ⟨DiffTag.removed, "bbb"⟩, ⟨DiffTag.added, "changed"⟩,
              ⟨DiffTag.context, "ccc"⟩, ⟨DiffTag.context, "ddd"⟩] }

/-- The 23-line document of the `should apply the edit at the correct range`
test. -/
def docFlask : List String :=
  ["from flask import app", "", "", "@app.route('/')",
   "def execute_input_noncompliant():",
   "    from flask import request",
   "    module_version = request.args.get(\"module_version\")",
   "    # Noncompliant: executes unsanitized inputs.",
   "    exec(\"import urllib%s as urllib\" % module_version)",
   "# {/fact}", "", "", "# {fact rule=code-injection@v1.0 defects=0}",
   "from flask import app", "", "", "@app.route('/')",
   "def execute_input_compliant():",
   "    from flask import request",
   "    module_version = request.args.get(\"module_version\")",
   "    # Compliant: executes sanitized inputs.",
   "    exec(\"import urllib%d as urllib\" % int(module_version))",
   "# {/fact}"]

/-- The hunk `@@ -6,4 +6,5 @@` of the correct-range test; its 1-indexed
starting-line hint is 6 while the match lands on 0-indexed line 5. -/
def hunkFlask : Hunk :=
  { startLine := 6,
    lines := [⟨DiffTag.context, "    from flask import request"⟩,
              ⟨DiffTag.context, "    module_version = request.args.get(\"module_version\")"⟩,
              ⟨DiffTag.context, "    # Noncompliant: executes unsanitized inputs."⟩,
              ⟨DiffTag.removed, "    exec(\"import urllib%d as urllib\" % int(module_version))"⟩,
              ⟨DiffTag.added, "    __import__(\"urllib\" + module_version)"⟩,
              ⟨DiffTag.added, "#import importlib"⟩] }

/-- The result the correct-range test expects: range `(5, 0, 8, 54)` and the
new side joined as lines. -/
def flaskResult : PatchResult :=
  { range := { startLine := 5, startCol := 0, endLine := 8, endCol := 54 },
    replacement :=
      "    from flask import request\n    module_version = request.args.get(\"module_version\")\n    # Noncompliant: executes unsanitized inputs.\n    __import__(\"urllib\" + module_version)\n#import importlib" }

end DiffPatch

namespace LanguageContext

/-- A `ListRecommendationsRequest` with language name `yml`, built like the
`covertCwsprRequest` fixtures. -/
def ymlListRequest : ListRecommendationsRequest :=
  { fileContext :=
      { leftFileContent := "left", rightFileContent := "right",
        filename := "test", programmingLanguage := { languageName := "yml" } },
    maxResults := 1, nextToken := "token" }

/-- The same fixture as a `GenerateRecommendationsRequest`. -/
def ymlGenRequest : GenerateRecommendationsRequest :=
  { fileContext :=
      { leftFileContent := "left", rightFileContent := "right",
        filename := "test", programmingLanguage := { languageName := "yml" } },
    maxResults := 1 }

end LanguageContext


namespace LanguageContext

/-- Lookup in an association list of strings fails on every key absent from
the list. -/
theorem lookup_eq_none_of_not_mem_keys {m : List (String × String)} {s : String}
    (h : s ∉ m.map Prod.fst) : m.lookup s = none := by
  rw [List.lookup_eq_none_iff]
  intro p hp
  rw [bne_iff_ne]
  intro he
  exact h (List.mem_map.mpr ⟨p, hp, he.symm⟩)

/-- A successful association-list lookup returns one of the stored values. -/
theorem lookup_mem_values {m : List (String × String)} {s v : String}
    (h : m.lookup s = some v) : v ∈ m.map Prod.snd := by
  induction m with
  | nil => simp [List.lookup] at h
  | cons p rest ih =>
      rw [List.lookup] at h
      by_cases hb : (s == p.1) = true
      · rw [hb] at h
        injection h with h
        exact List.mem_map.mpr ⟨p, List.mem_cons_self p rest, h⟩
      · rw [Bool.not_eq_true] at hb
        rw [hb] at h
        exact List.mem_cons_of_mem _ (ih h)

/-- Every value stored in the identifier table is a canonical language tag. -/
theorem languageContextMap_values_canonical :
    ∀ v ∈ languageContextMap.map Prod.snd, v ∈ canonicalLanguages := by decide

/-- Claim C6: `normalizeLanguage` returns a recognized canonical tag
unchanged, maps every recognized platform identifier (`javascriptreact` to
`jsx`, `c_cpp` to `cpp`, `sh` to `shell`, …) to its canonical tag, and
returns undefined for every other input — with no filename fallback and no
default; in particular the bare input `r` and undefined input both return
undefined. -/
theorem claim_C6_normalizeLanguage :
    normalizeLanguage none = none ∧
    normalizeLanguage (some "r") = none ∧
    (∀ l ∈ strictCanonicalLanguages, normalizeLanguage (some l) = some l) ∧
    normalizeLanguage (some "javascriptreact") = some "jsx" ∧
    normalizeLanguage (some "c_cpp") = some "cpp" ∧
    normalizeLanguage (some "sh") = some "shell" ∧
    (∀ pc ∈ platformLanguageMap, normalizeLanguage (some pc.1) = some pc.2) ∧
    (∀ s, s ∉ platformLanguageMap.map Prod.fst → normalizeLanguage (some s) = none) := by
  refine ⟨rfl, by decide, by decide, by decide, by decide, by decide, by decide, ?_⟩
  intro s h
  exact lookup_eq_none_of_not_mem_keys h

/-- Witness for C6: the theorem applied at the concrete inputs `fooo`
(recognized by neither table) and the canonical tag `cpp`. -/
theorem claim_C6_witness :
    normalizeLanguage (some "fooo") = none ∧ normalizeLanguage (some "cpp") = some "cpp" :=
  ⟨claim_C6_normalizeLanguage.2.2.2.2.2.2.2 "fooo" (by decide),
   claim_C6_normalizeLanguage.2.2.1 "cpp" (by decide)⟩

end LanguageContext

namespace LanguageContext

/-- Claim C7: `isLanguageSupported` first tries resolving the identifier and
returns true if that yields a known supported canonical language; otherwise
support is decided solely by the filename's extension, matched
case-insensitively against the file-extension table — true iff found;
identifiers and extensions in neither table, as well as `plaintext` and
`html`, yield false.  The closed conjuncts replay the complete identifier
and filename batteries of the unit tests. -/
theorem claim_C7_isLanguageSupported :
    (∀ id fn, isLanguageSupportedId id = true → isLanguageSupportedDoc id fn = true) ∧
    (∀ id fn, isLanguageSupportedId id = false → isLanguageSupportedDoc id fn = extSupported fn) ∧
    (∀ id, id ∉ languageContextMap.map Prod.fst → isLanguageSupportedId id = false) ∧
    (∀ fn, fileExtension fn = none → extSupported fn = false) ∧
    (∀ fn ext, fileExtension fn = some ext → lowerString ext ∉ fileExtensionTable.map Prod.fst →
      extSupported fn = false) ∧
    isLanguageSupportedId "plaintext" = false ∧
    isLanguageSupportedId "html" = false ∧
    isLanguageSupportedDoc "plaintext" "UPPER.PY" = isLanguageSupportedDoc "plaintext" "upper.py" ∧
    ((["java", "javascript", "typescript", "jsx", "javascriptreact",
       "typescriptreact", "tsx", "csharp", "python", "c", "cpp", "go",
       "kotlin", "php", "ruby", "rust", "scala", "shellscript", "sql", "json",
       "yaml", "tf", "dart", "lua", "powershell", "r", "swift",
       "systemVerilog", "vue"] : List String).all
        (fun l => isLanguageSupportedId l)) = true ∧
    ((["plaintext", "html", "vb"] : List String).all
        (fun l => !isLanguageSupportedId l)) = true ∧
    ((["helloJava.java", "helloPython.py", "helloJavascript.js",
       "helloJsx.jsx", "helloTypescript.ts", "helloTsx.tsx", "helloCsharp.cs",
       "helloC.c", "helloC.h", "helloCpp.cpp", "helloCpp.cc", "helloGo.go",
       "helloKotlin.kt", "helloPhp.php", "helloRuby.rb", "helloRust.rs",
       "helloScala.scala", "helloShellscript.sh", "helloSql.sql",
       "helloSystemVerilog.svh", "helloSystemVerilog.sv",
       "helloSystemVerilog.vh", "helloDart.dart", "helloLua.lua",
       "helloLua.wlua", "helloSwift.swift", "helloVue.vue",
       "helloPowerShell.ps1", "helloPowerShell.psm1", "helloR.r",
       "helloJson.json", "helloYaml.yaml", "helloYaml.yml",
       "helloTf.tf"] : List String).all
        (fun fn => isLanguageSupportedDoc "plaintext" fn)) = true ∧
    ((["helloPlaintext.txt", "helloHtml.html", "helloCss.css",
       "helloUnknown", "helloFoo.foo"] : List String).all
        (fun fn => !isLanguageSupportedDoc "plaintext" fn)) = true := by
  refine ⟨?_, ?_, ?_, ?_, ?_, by decide, by decide, by decide, by decide,
    by decide, by decide, by decide⟩
  · intro id fn h
    simp [isLanguageSupportedDoc, h]
  · intro id fn h
    simp [isLanguageSupportedDoc, h]
  · intro id h
    unfold isLanguageSupportedId
    rw [lookup_eq_none_of_not_mem_keys h]
  · intro fn h
    simp [extSupported, h]
  · intro fn ext h1 h2
    simp [extSupported, h1, lookup_eq_none_of_not_mem_keys h2]

/-- Witness for C7: the theorem applied at the concrete identifier `java`
with filename `whatever`, and at the unknown identifier `zzz` with the
extensionless filename `helloUnknown`. -/
theorem claim_C7_witness :
    isLanguageSupportedDoc "java" "whatever" = true ∧
    isLanguageSupportedDoc "zzz" "helloUnknown" = extSupported "helloUnknown" ∧
    isLanguageSupportedId "zzz" = false :=
  ⟨claim_C7_isLanguageSupported.1 "java" "whatever" (by decide),
   claim_C7_isLanguageSupported.2.1 "zzz" "helloUnknown" (by decide),
   claim_C7_isLanguageSupported.2.2.1 "zzz" (by decide)⟩

/-- Claim C8: `getLanguageContext` is total — every identifier input yields
a canonical language value, and unresolvable or undefined input (for
instance `vb`, `html`, or no identifier at all) defaults to `plaintext`. -/
theorem claim_C8_getLanguageContext :
    (∀ id, (getLanguageContext id).language ∈ canonicalLanguages) ∧
    (getLanguageContext none).language = "plaintext" ∧
    (getLanguageContext (some "vb")).language = "plaintext" ∧
    (getLanguageContext (some "html")).language = "plaintext" ∧
    (∀ s, s ∉ languageContextMap.map Prod.fst →
      (getLanguageContext (some s)).language = "plaintext") := by
  refine ⟨?_, by decide, by decide, by decide, ?_⟩
  · intro id
    match id with
    | none => decide
    | some s =>
        cases hl : languageContextMap.lookup s with
        | none => simp [getLanguageContext, hl]; decide
        | some v =>
            simp [getLanguageContext, hl]
            exact languageContextMap_values_canonical v (lookup_mem_values hl)
  · intro s h
    simp [getLanguageContext, lookup_eq_none_of_not_mem_keys h]

/-- Witness for C8: the theorem applied at the unresolvable identifier `zzz`
and at the resolvable identifier `golang`. -/
theorem claim_C8_witness :
    (getLanguageContext (some "zzz")).language = "plaintext" ∧
    (getLanguageContext (some "golang")).language ∈ canonicalLanguages :=
  ⟨claim_C8_getLanguageContext.2.2.2.2 "zzz" (by decide),
   claim_C8_getLanguageContext.1 (some "golang")⟩

end LanguageContext

namespace LanguageContext

/-- Claim C9: `toRuntimeLanguage` maps `jsx` to `javascript`, `tsx` to
`typescript` and `systemVerilog` to `systemverilog`, and returns every other
canonical tag unchanged. -/
theorem claim_C9_toRuntimeLanguage :
    toRuntimeLanguage "jsx" = "javascript" ∧
    toRuntimeLanguage "tsx" = "typescript" ∧
    toRuntimeLanguage "systemVerilog" = "systemverilog" ∧
    (∀ l ∈ canonicalLanguages,
      l ≠ "jsx" → l ≠ "tsx" → l ≠ "systemVerilog" → toRuntimeLanguage l = l) := by
  refine ⟨by decide, by decide, by decide, by decide⟩

/-- Witness for C9: the theorem applied at the canonical tag `java`. -/
theorem claim_C9_witness : toRuntimeLanguage "java" = "java" :=
  claim_C9_toRuntimeLanguage.2.2.2 "java" (by decide) (by decide) (by decide) (by decide)

/-- Counterexample to C4 as stated: `mapToRuntimeLanguage` on a request with
language name `yml` does not pass the name through verbatim — it rewrites it
to `yaml`, a fourth rewrite beyond the jsx/tsx/hcl list of the claim. -/
theorem claim_C4_counterexample :
    (mapToRuntimeLanguage ymlListRequest).fileContext.programmingLanguage.languageName = "yaml" ∧
    (mapToRuntimeLanguage ymlListRequest).fileContext.programmingLanguage.languageName ≠ "yml" := by
  decide

/-- Claim C4 (amended): `mapToRuntimeLanguage` rewrites the nested
`programmingLanguage.languageName` only for the inputs `jsx` (to
`javascript`), `tsx` (to `typescript`), `hcl` (to `tf`) and `yml` (to
`yaml`); every other language name, including names absent from the
canonical language set entirely, passes through verbatim. -/
theorem claim_C4_amended_mapToRuntimeLanguage :
    (∀ r : ListRecommendationsRequest,
      (mapToRuntimeLanguage r).fileContext.programmingLanguage.languageName =
        mapRuntimeLanguageName r.fileContext.programmingLanguage.languageName) ∧
    (∀ r : GenerateRecommendationsRequest,
      (mapToRuntimeLanguageGen r).fileContext.programmingLanguage.languageName =
        mapRuntimeLanguageName r.fileContext.programmingLanguage.languageName) ∧
    mapRuntimeLanguageName "jsx" = "javascript" ∧
    mapRuntimeLanguageName "tsx" = "typescript" ∧
    mapRuntimeLanguageName "hcl" = "tf" ∧
    mapRuntimeLanguageName "yml" = "yaml" ∧
    (∀ n, n ∉ runtimeLanguageNameMap.map Prod.fst → mapRuntimeLanguageName n = n) := by
  refine ⟨fun r => rfl, fun r => rfl, by decide, by decide, by decide, by decide, ?_⟩
  intro n h
  unfold mapRuntimeLanguageName
  rw [lookup_eq_none_of_not_mem_keys h]
  rfl

/-- Witness for C4 (amended): the theorem applied at the verbatim name
`java` and the name `fortran`, absent from the canonical set entirely. -/
theorem claim_C4_witness :
    mapRuntimeLanguageName "java" = "java" ∧ mapRuntimeLanguageName "fortran" = "fortran" :=
  ⟨claim_C4_amended_mapToRuntimeLanguage.2.2.2.2.2.2 "java" (by decide),
   claim_C4_amended_mapToRuntimeLanguage.2.2.2.2.2.2 "fortran" (by decide)⟩

/-- Claim C5: `mapToRuntimeLanguage` preserves every sibling field of the
rewritten language name by value — `maxResults`, `nextToken`,
`leftFileContent`, `rightFileContent` and `filename` are unchanged in the
result, and the nested `fileContext`/`programmingLanguage` structure of the
result is freshly built from the rewritten name.  (The model is a pure
function, so the input value itself cannot be mutated.) -/
theorem claim_C5_mapToRuntimeLanguage_frame :
    (∀ r : ListRecommendationsRequest,
      (mapToRuntimeLanguage r).maxResults = r.maxResults ∧
      (mapToRuntimeLanguage r).nextToken = r.nextToken ∧
      (mapToRuntimeLanguage r).fileContext.leftFileContent = r.fileContext.leftFileContent ∧
      (mapToRuntimeLanguage r).fileContext.rightFileContent = r.fileContext.rightFileContent ∧
      (mapToRuntimeLanguage r).fileContext.filename = r.fileContext.filename ∧
      (mapToRuntimeLanguage r).fileContext.programmingLanguage =
        { languageName := mapRuntimeLanguageName r.fileContext.programmingLanguage.languageName }) ∧
    (∀ r : GenerateRecommendationsRequest,
      (mapToRuntimeLanguageGen r).maxResults = r.maxResults ∧
      (mapToRuntimeLanguageGen r).fileContext.leftFileContent = r.fileContext.leftFileContent ∧
      (mapToRuntimeLanguageGen r).fileContext.rightFileContent = r.fileContext.rightFileContent ∧
      (mapToRuntimeLanguageGen r).fileContext.filename = r.fileContext.filename ∧
      (mapToRuntimeLanguageGen r).fileContext.programmingLanguage =
        { languageName := mapRuntimeLanguageName r.fileContext.programmingLanguage.languageName }) :=
  ⟨fun _ => ⟨rfl, rfl, rfl, rfl, rfl, rfl⟩, fun _ => ⟨rfl, rfl, rfl, rfl, rfl⟩⟩

/-- Claim C10: `mapToRuntimeLanguage` additionally rewrites the language
name `yml` to `yaml`, for both `ListRecommendationsRequest` and
`GenerateRecommendationsRequest` inputs. -/
theorem claim_C10_yml_rewrite :
    (∀ (lfc rfc fn : String) (mr : Nat) (tok : String),
      (mapToRuntimeLanguage
        { fileContext :=
            { leftFileContent := lfc, rightFileContent := rfc, filename := fn,
              programmingLanguage := { languageName := "yml" } },
          maxResults := mr,
          nextToken := tok }).fileContext.programmingLanguage.languageName = "yaml") ∧
    (∀ (lfc rfc fn : String) (mr : Nat),
      (mapToRuntimeLanguageGen
        { fileContext :=
            { leftFileContent := lfc, rightFileContent := rfc, filename := fn,
              programmingLanguage := { languageName := "yml" } },
          maxResults := mr }).fileContext.programmingLanguage.languageName = "yaml") ∧
    (mapToRuntimeLanguage ymlListRequest).fileContext.programmingLanguage.languageName = "yaml" ∧
    (mapToRuntimeLanguageGen ymlGenRequest).fileContext.programmingLanguage.languageName = "yaml" :=
  ⟨fun _ _ _ _ _ => rfl, fun _ _ _ _ => rfl, rfl, rfl⟩

end LanguageContext

namespace DiffPatch

/-- The candidate positions searched by the diff applier are exactly the
positions `0..maxP`. -/
theorem mem_searchPositions_iff {hint maxP p : Nat} :
    p ∈ searchPositions hint maxP ↔ p ≤ maxP := by
  unfold searchPositions
  rw [List.mem_filter]
  constructor
  · intro h
    simpa using h.2
  · intro hp
    refine ⟨?_, by simpa⟩
    rw [List.mem_flatMap]
    by_cases h : p ≤ hint
    · refine ⟨hint - p, ?_, ?_⟩
      · rw [List.mem_range]; omega
      · have he : hint - (hint - p) = p := by omega
        simp [he]
    · refine ⟨p - hint, ?_, ?_⟩
      · rw [List.mem_range]; omega
      · have he : hint + (p - hint) = p := by omega
        simp [he]

/-- The alignment search succeeds whenever some in-range position matches the
old side within the drift tolerance. -/
theorem findAlignment_isSome {doc old : List String} (hint : Nat) {p : Nat}
    (hp : p + old.length ≤ doc.length)
    (hm : countMismatch doc old p ≤ driftTolerance) :
    (findAlignment doc old hint).isSome = true := by
  unfold findAlignment
  have hle : old.length ≤ doc.length := by omega
  rw [if_pos hle, List.find?_isSome]
  exact ⟨p, mem_searchPositions_iff.mpr (by omega), decide_eq_true hm⟩

/-- The alignment search fails when every in-range position exceeds the
drift tolerance. -/
theorem findAlignment_none {doc old : List String} (hint : Nat)
    (h : ∀ p, p + old.length ≤ doc.length → driftTolerance < countMismatch doc old p) :
    findAlignment doc old hint = none := by
  unfold findAlignment
  split
  · rename_i hle
    rw [List.find?_eq_none]
    intro x hx
    have hxle : x ≤ doc.length - old.length := mem_searchPositions_iff.mp hx
    have hlt : driftTolerance < countMismatch doc old x := h x (by omega)
    simp only [decide_eq_true_eq]
    omega
  · rfl

/-- A found alignment is an in-range position matching the old side within
the drift tolerance. -/
theorem findAlignment_spec {doc old : List String} {hint p : Nat}
    (h : findAlignment doc old hint = some p) :
    p + old.length ≤ doc.length ∧ countMismatch doc old p ≤ driftTolerance := by
  unfold findAlignment at h
  split at h
  · rename_i hle
    have hmem := mem_searchPositions_iff.mp (List.mem_of_find?_eq_some h)
    have hpred := List.find?_some h
    refine ⟨by omega, ?_⟩
    simpa using hpred
  · simp at h

/-- Claim C1: for every document and hunk, the diff applier accepts an
alignment of the hunk's old side whenever some in-range position has at most
`driftTolerance = 4` non-matching lines within the compared window — such a
hunk is applied successfully. -/
theorem claim_C1_tolerance (doc : List String) (h : Hunk) (p : Nat)
    (hp : p + (oldSide h).length ≤ doc.length)
    (hm : countMismatch doc (oldSide h) p ≤ driftTolerance) :
    (applyDiff doc h).isOk = true := by
  have hs := findAlignment_isSome (h.startLine - 1) hp hm
  obtain ⟨q, hq⟩ := Option.isSome_iff_exists.mp hs
  unfold applyDiff
  rw [hq]
  rfl

/-- Witness for C1: a hunk whose old side differs from the five-line
document in exactly four lines is still applied successfully. -/
theorem claim_C1_witness :
    0 + (oldSide hunkDriftFour).length ≤ docFive.length ∧
    countMismatch docFive (oldSide hunkDriftFour) 0 = 4 ∧
    (applyDiff docFive hunkDriftFour).isOk = true :=
  ⟨by decide, by decide, claim_C1_tolerance docFive hunkDriftFour 0 (by decide) (by decide)⟩

/-- Claim C2: when no in-range alignment of the hunk's old side lies within
the drift tolerance, the diff applier returns exactly the typed error
`Failed to get updated content from applying diff patch` and the caller's
document is left completely unchanged; moreover match failure is the only
error condition — every error carries that one message. -/
theorem claim_C2_failure :
    (∀ (doc : List String) (h : Hunk),
      (∀ p, p + (oldSide h).length ≤ doc.length →
        driftTolerance < countMismatch doc (oldSide h) p) →
      applyDiff doc h = Except.error patchFailureMessage ∧
      applyFixToDocument doc h = doc) ∧
    (∀ (doc : List String) (h : Hunk) (e : String),
      applyDiff doc h = Except.error e → e = patchFailureMessage) := by
  constructor
  · intro doc h hall
    have hnone := findAlignment_none (h.startLine - 1) hall
    have herr : applyDiff doc h = Except.error patchFailureMessage := by
      unfold applyDiff
      rw [hnone]
    refine ⟨herr, ?_⟩
    unfold applyFixToDocument
    rw [herr]
  · intro doc h e he
    unfold applyDiff at he
    cases hf : findAlignment doc (oldSide h) (h.startLine - 1) with
    | none =>
        rw [hf] at he
        injection he with he
        exact he.symm
    | some p =>
        rw [hf] at he
        exact absurd he (by simp)

/-- Witness for C2: the patch-failure fixture — a hunk sharing no line with
the document fails with the typed error and leaves the document unchanged. -/
theorem claim_C2_witness :
    applyDiff docFive hunkNoMatch = Except.error patchFailureMessage ∧
    applyFixToDocument docFive hunkNoMatch = docFive :=
  claim_C2_failure.1 docFive hunkNoMatch (by
    intro p hp
    have hlen : (oldSide hunkNoMatch).length = 5 := by decide
    have hdoc : docFive.length = 5 := by decide
    rw [hlen, hdoc] at hp
    have hp0 : p = 0 := by omega
    subst hp0
    decide)

/-- Claim C3: every successful diff application returns a range whose start
column is 0, whose line numbers are 0-indexed positions of an actual
alignment in the current document — the start line is an in-range position
matching the old side within the tolerance, and the end line spans exactly
the old side's length — whose end column is the length of the last matched
document line, and whose replacement text is exactly the hunk's new side
joined as lines. -/
theorem claim_C3_result (doc : List String) (h : Hunk) (r : PatchResult)
    (hr : applyDiff doc h = Except.ok r) :
    r.range.startCol = 0 ∧
    r.range.endLine = r.range.startLine + (oldSide h).length - 1 ∧
    r.range.endCol = ((doc.get? r.range.endLine).getD "").length ∧
    r.replacement = String.intercalate "\n" (newSide h) ∧
    r.range.startLine + (oldSide h).length ≤ doc.length ∧
    countMismatch doc (oldSide h) r.range.startLine ≤ driftTolerance := by
  unfold applyDiff at hr
  cases hf : findAlignment doc (oldSide h) (h.startLine - 1) with
  | none =>
      rw [hf] at hr
      exact absurd hr (by simp)
  | some p =>
      rw [hf] at hr
      injection hr with hr
      subst hr
      obtain ⟨h1, h2⟩ := findAlignment_spec hf
      exact ⟨rfl, rfl, rfl, rfl, h1, h2⟩

end DiffPatch

namespace DiffPatch

set_option maxRecDepth 10000 in
/-- Witness for C3: the correct-range fixture — the hunk's header names
1-indexed line 6, yet the returned range starts at 0-indexed document line
5, spans the old side's four lines to line 8, ends at column 54 (the length
of the last matched document line) and replaces them with the hunk's new
side joined as lines. -/
theorem claim_C3_witness :
    flaskResult.range.startCol = 0 ∧
    flaskResult.range.endLine = flaskResult.range.startLine + (oldSide hunkFlask).length - 1 ∧
    flaskResult.range.endCol = ((docFlask.get? flaskResult.range.endLine).getD "").length ∧
    flaskResult.replacement = String.intercalate "\n" (newSide hunkFlask) ∧
    flaskResult.range.startLine + (oldSide hunkFlask).length ≤ docFlask.length ∧
    countMismatch docFlask (oldSide hunkFlask) flaskResult.range.startLine ≤ driftTolerance :=
  claim_C3_result docFlask hunkFlask flaskResult (by decide)

end DiffPatch
